import Mathlib

/-
Verification of `src/ariston/lydos_hybrid_device.py`
(class `AristonLydosHybridDevice`), a thin facade over a cloud gateway
API for a hybrid water heater.

The embedding is shallow: Python dicts become association lists, the
`api` collaborator becomes a record of fallible functions, every method
of the class becomes a Lean function returning the post-state of the
device, the list of remote API calls it issued (in order), and an
`Except` outcome mirroring normal return versus a raised exception.
Python floats are modelled by `ℚ`: the module never computes with them,
it only passes them through verbatim, so no rounding behaviour is lost.
-/

namespace LydosHybrid

/-- Modelled from the spec: `const.SeDeviceSettings` is not under `src/`;
the spec describes it as an enumeration of device setting keys (the
anti-legionella flag and the setpoint-temperature bounds).  `OTHER`
stands for any further key of the enumeration, so that frame statements
quantify over all keys. -/
inductive SeDeviceSettings where
  | SE_ANTILEGIONELLA_ON_OFF
  | SE_MAX_SETPOINT_TEMPERATURE
  | SE_MAX_SETPOINT_TEMPERATURE_MIN
  | SE_MAX_SETPOINT_TEMPERATURE_MAX
  | OTHER (s : String)
deriving DecidableEq

/-- Modelled from the spec: `const.VelisDeviceProperties` is not under
`src/`; the spec describes it as an enumeration of device state keys
(mode, requested temperature, power on/off).  `OTHER` stands for any
further key. -/
inductive VelisDeviceProperties where
  | MODE
  | REQ_TEMP
  | ON
  | OTHER (s : String)
deriving DecidableEq

/-- Modelled from the spec: `const.LydosPlantMode` is not under `src/`;
the spec describes it as a plain enumeration of water-heater operation
modes, each member having a `name` and an integer `value`, and a plain
Enum member is a value distinct from (and not Python-equal to) its
integer `value`.  The concrete member set is representative; no claim
depends on which members exist. -/
inductive LydosPlantMode where
  | IMEMORY
  | GREEN
deriving DecidableEq

/-- The integer `value` of a `LydosPlantMode` member. -/
def LydosPlantMode.value : LydosPlantMode → ℚ
  | .IMEMORY => 1
  | .GREEN => 2

/-- Python `LydosPlantMode[name]`: look a member up by its name, the
`none` case standing for the `KeyError` Python raises on a bad name. -/
def LydosPlantMode.byName : String → Option LydosPlantMode
  | "IMEMORY" => some .IMEMORY
  | "GREEN" => some .GREEN
  | _ => none

/-- The name string of a `SeDeviceSettings` key, used as the payload of
the `KeyError` raised when the key is missing from `plant_settings`. -/
def SeDeviceSettings.keyName : SeDeviceSettings → String
  | .SE_ANTILEGIONELLA_ON_OFF => "SE_ANTILEGIONELLA_ON_OFF"
  | .SE_MAX_SETPOINT_TEMPERATURE => "SE_MAX_SETPOINT_TEMPERATURE"
  | .SE_MAX_SETPOINT_TEMPERATURE_MIN => "SE_MAX_SETPOINT_TEMPERATURE_MIN"
  | .SE_MAX_SETPOINT_TEMPERATURE_MAX => "SE_MAX_SETPOINT_TEMPERATURE_MAX"
  | .OTHER s => s

/-- A Python value as stored in the two snapshot dicts or sent to the
API: a bool, a number (int or float, both compare numerically in
Python), or a `LydosPlantMode` member. -/
inductive Value where
  | vb (b : Bool)
  | vq (q : ℚ)
  | vmode (m : LydosPlantMode)
deriving DecidableEq

/-- Python truthiness of a stored value (`if v:`). -/
def Value.truthy : Value → Bool
  | .vb b => b
  | .vq q => decide (q ≠ 0)
  | .vmode _ => true

/-- Python `==` on values: `True == 1.0` holds (bool is an int
subclass), numbers compare numerically, and a plain Enum member equals
only itself, never its integer value. -/
def Value.pyEq : Value → Value → Bool
  | .vb b, .vb b' => b = b'
  | .vb b, .vq q => decide ((if b then (1 : ℚ) else 0) = q)
  | .vq q, .vb b => decide (q = (if b then (1 : ℚ) else 0))
  | .vq q, .vq q' => decide (q = q')
  | .vmode m, .vmode m' => m = m'
  | .vmode _, _ => false
  | _, .vmode _ => false

/-- Python dict lookup `m.get(k)` / `m[k]` on an association list. -/
def dictGet {κ α : Type} [DecidableEq κ] : List (κ × α) → κ → Option α
  | [], _ => none
  | (k', v) :: t, k => if k' = k then some v else dictGet t k

/-- Python dict assignment `m[k] = v`: replace the binding in place if
the key is present, append it otherwise. -/
def dictSet {κ α : Type} [DecidableEq κ] : List (κ × α) → κ → α → List (κ × α)
  | [], k, v => [(k, v)]
  | (k', v') :: t, k, v =>
      if k' = k then (k, v) :: t else (k', v') :: dictSet t k v

/-- A Python exception: a `KeyError` carrying the missing key, or any
exception raised by the underlying API client (identified by a code so
that distinct errors are distinguishable). -/
inductive Exc where
  | keyError (s : String)
  | apiError (code : ℕ)
deriving DecidableEq

/-- A remote API call as issued by this module, with its arguments.
Sync and async methods hit the same remote endpoints, so one descriptor
serves both call surfaces. -/
inductive ApiCall where
  | setLydosPlantSetting (gw : String) (k : SeDeviceSettings)
      (newVal oldVal : Value)
  | setLydosMode (gw : String) (m : LydosPlantMode)
  | setLydosTemperature (gw : String) (t : ℚ)
  | setLydosPower (gw : String) (p : Bool)
  | getSePlantData (gw : String)
  | getSePlantSettings (gw : String)
  | getConsumptionsSequences (gw : String) (q : String)
deriving DecidableEq

/-- The gateway API client collaborator (`self.api`), modelled as a
record of fallible functions: one field per client method used by this
module, the blocking and the non-blocking variant each its own field so
that nothing forces them to agree. -/
structure Api where
  set_lydos_plant_setting :
    String → SeDeviceSettings → Value → Value → Except Exc Unit
  async_set_lydos_plant_setting :
    String → SeDeviceSettings → Value → Value → Except Exc Unit
  set_lydos_mode : String → LydosPlantMode → Except Exc Unit
  async_set_lydos_mode : String → LydosPlantMode → Except Exc Unit
  set_lydos_temperature : String → ℚ → Except Exc Unit
  async_set_lydos_temperature : String → ℚ → Except Exc Unit
  set_lydos_power : String → Bool → Except Exc Unit
  async_set_lydos_power : String → Bool → Except Exc Unit
  get_se_plant_data :
    String → Except Exc (List (VelisDeviceProperties × Value))
  async_get_se_plant_data :
    String → Except Exc (List (VelisDeviceProperties × Value))
  get_se_plant_settings :
    String → Except Exc (List (SeDeviceSettings × Value))
  async_get_se_plant_settings :
    String → Except Exc (List (SeDeviceSettings × Value))
  get_consumptions_sequences : String → String → Except Exc (List ℚ)
  async_get_consumptions_sequences : String → String → Except Exc (List ℚ)

/-- Modelled from the spec: the mutable attributes this module inherits
from `velis_device.AristonVelisDevice` (not under `src/`) — the gateway
id `gw`, the two snapshot dicts `data` and `plant_settings`, and the
`consumptions_sequences` cache. -/
structure Device where
  gw : String
  data : List (VelisDeviceProperties × Value)
  plant_settings : List (SeDeviceSettings × Value)
  consumptions_sequences : List ℚ
deriving DecidableEq

/-- Result of running one method: the device post-state (also on a
raised exception, mirroring `self` after the exception propagates), the
remote API calls issued in order, and the outcome. -/
abbrev MRes := Device × List ApiCall × Except Exc Unit

namespace AristonLydosHybridDevice

/-- `update_state`: `self.data = self.api.get_se_plant_data(self.gw)`. -/
def update_state (api : Api) (d : Device) : MRes :=
  match api.get_se_plant_data d.gw with
  | .error e => (d, [.getSePlantData d.gw], .error e)
  | .ok res => ({ d with data := res }, [.getSePlantData d.gw], .ok ())

/-- `async_update_state`: same body through the async client method. -/
def async_update_state (api : Api) (d : Device) : MRes :=
  match api.async_get_se_plant_data d.gw with
  | .error e => (d, [.getSePlantData d.gw], .error e)
  | .ok res => ({ d with data := res }, [.getSePlantData d.gw], .ok ())

/-- `update_settings`:
`self.plant_settings = self.api.get_se_plant_settings(self.gw)`. -/
def update_settings (api : Api) (d : Device) : MRes :=
  match api.get_se_plant_settings d.gw with
  | .error e => (d, [.getSePlantSettings d.gw], .error e)
  | .ok res =>
      ({ d with plant_settings := res }, [.getSePlantSettings d.gw], .ok ())

/-- `async_update_settings`: same body through the async client method. -/
def async_update_settings (api : Api) (d : Device) : MRes :=
  match api.async_get_se_plant_settings d.gw with
  | .error e => (d, [.getSePlantSettings d.gw], .error e)
  | .ok res =>
      ({ d with plant_settings := res }, [.getSePlantSettings d.gw], .ok ())

/-- `get_water_anti_leg_value`: read of
`plant_settings.get(SE_ANTILEGIONELLA_ON_OFF, None)`; the method body
has no assignment, so the device passes through unchanged. -/
def get_water_anti_leg_value (d : Device) : Option Value × Device :=
  (dictGet d.plant_settings .SE_ANTILEGIONELLA_ON_OFF, d)

/-- `get_water_heater_maximum_setpoint_temperature_minimum`. -/
def get_water_heater_maximum_setpoint_temperature_minimum
    (d : Device) : Option Value × Device :=
  (dictGet d.plant_settings .SE_MAX_SETPOINT_TEMPERATURE_MIN, d)

/-- `get_water_heater_maximum_setpoint_temperature_maximum`. -/
def get_water_heater_maximum_setpoint_temperature_maximum
    (d : Device) : Option Value × Device :=
  (dictGet d.plant_settings .SE_MAX_SETPOINT_TEMPERATURE_MAX, d)

/-- `get_water_heater_maximum_setpoint_temperature`. -/
def get_water_heater_maximum_setpoint_temperature
    (d : Device) : Option Value × Device :=
  (dictGet d.plant_settings .SE_MAX_SETPOINT_TEMPERATURE, d)

/-- `set_antilegionella(anti_leg)`: the old value is read by direct
indexing (`KeyError` when absent, before any remote call), the new and
old values are sent float-encoded (`1.0`/`0.0` by truthiness), then the
bool itself is stored locally. -/
def set_antilegionella (api : Api) (d : Device) (anti_leg : Bool) : MRes :=
  match dictGet d.plant_settings .SE_ANTILEGIONELLA_ON_OFF with
  | none =>
      (d, [], .error (.keyError
        (SeDeviceSettings.keyName .SE_ANTILEGIONELLA_ON_OFF)))
  | some old =>
      let newVal : Value := .vq (if anti_leg then 1 else 0)
      let oldVal : Value := .vq (if old.truthy then 1 else 0)
      match api.set_lydos_plant_setting d.gw
          .SE_ANTILEGIONELLA_ON_OFF newVal oldVal with
      | .error e =>
          (d, [.setLydosPlantSetting d.gw .SE_ANTILEGIONELLA_ON_OFF
                newVal oldVal], .error e)
      | .ok _ =>
          ({ d with plant_settings :=
              (dictSet d.plant_settings .SE_ANTILEGIONELLA_ON_OFF
                (.vb anti_leg)) },
           [.setLydosPlantSetting d.gw .SE_ANTILEGIONELLA_ON_OFF
             newVal oldVal], .ok ())

/-- `async_set_antilegionella`: same body through the async client
method. -/
def async_set_antilegionella (api : Api) (d : Device) (anti_leg : Bool) :
    MRes :=
  match dictGet d.plant_settings .SE_ANTILEGIONELLA_ON_OFF with
  | none =>
      (d, [], .error (.keyError
        (SeDeviceSettings.keyName .SE_ANTILEGIONELLA_ON_OFF)))
  | some old =>
      let newVal : Value := .vq (if anti_leg then 1 else 0)
      let oldVal : Value := .vq (if old.truthy then 1 else 0)
      match api.async_set_lydos_plant_setting d.gw
          .SE_ANTILEGIONELLA_ON_OFF newVal oldVal with
      | .error e =>
          (d, [.setLydosPlantSetting d.gw .SE_ANTILEGIONELLA_ON_OFF
                newVal oldVal], .error e)
      | .ok _ =>
          ({ d with plant_settings :=
              (dictSet d.plant_settings .SE_ANTILEGIONELLA_ON_OFF
                (.vb anti_leg)) },
           [.setLydosPlantSetting d.gw .SE_ANTILEGIONELLA_ON_OFF
             newVal oldVal], .ok ())

/-- `set_water_heater_operation_mode(operation_mode)`: the member is
looked up by name (`KeyError` on a bad name, before any remote call),
the member itself is sent, and its integer `.value` is stored under
`MODE`. -/
def set_water_heater_operation_mode (api : Api) (d : Device)
    (operation_mode : String) : MRes :=
  match LydosPlantMode.byName operation_mode with
  | none => (d, [], .error (.keyError operation_mode))
  | some m =>
      match api.set_lydos_mode d.gw m with
      | .error e => (d, [.setLydosMode d.gw m], .error e)
      | .ok _ =>
          ({ d with data := dictSet d.data .MODE (.vq m.value) },
           [.setLydosMode d.gw m], .ok ())

/-- `async_set_water_heater_operation_mode`: same body through the
async client method. -/
def async_set_water_heater_operation_mode (api : Api) (d : Device)
    (operation_mode : String) : MRes :=
  match LydosPlantMode.byName operation_mode with
  | none => (d, [], .error (.keyError operation_mode))
  | some m =>
      match api.async_set_lydos_mode d.gw m with
      | .error e => (d, [.setLydosMode d.gw m], .error e)
      | .ok _ =>
          ({ d with data := dictSet d.data .MODE (.vq m.value) },
           [.setLydosMode d.gw m], .ok ())

/-- `set_water_heater_temperature(temperature)`. -/
def set_water_heater_temperature (api : Api) (d : Device)
    (temperature : ℚ) : MRes :=
  match api.set_lydos_temperature d.gw temperature with
  | .error e => (d, [.setLydosTemperature d.gw temperature], .error e)
  | .ok _ =>
      ({ d with data := dictSet d.data .REQ_TEMP (.vq temperature) },
       [.setLydosTemperature d.gw temperature], .ok ())

/-- `async_set_water_heater_temperature`: same body through the async
client method. -/
def async_set_water_heater_temperature (api : Api) (d : Device)
    (temperature : ℚ) : MRes :=
  match api.async_set_lydos_temperature d.gw temperature with
  | .error e => (d, [.setLydosTemperature d.gw temperature], .error e)
  | .ok _ =>
      ({ d with data := dictSet d.data .REQ_TEMP (.vq temperature) },
       [.setLydosTemperature d.gw temperature], .ok ())

/-- `set_power(power)`. -/
def set_power (api : Api) (d : Device) (power : Bool) : MRes :=
  match api.set_lydos_power d.gw power with
  | .error e => (d, [.setLydosPower d.gw power], .error e)
  | .ok _ =>
      ({ d with data := dictSet d.data .ON (.vb power) },
       [.setLydosPower d.gw power], .ok ())

/-- `async_set_power`: same body through the async client method. -/
def async_set_power (api : Api) (d : Device) (power : Bool) : MRes :=
  match api.async_set_lydos_power d.gw power with
  | .error e => (d, [.setLydosPower d.gw power], .error e)
  | .ok _ =>
      ({ d with data := dictSet d.data .ON (.vb power) },
       [.setLydosPower d.gw power], .ok ())

/-- `set_max_setpoint_temp(max_setpoint_temp)`: the stored old value is
read by direct indexing (`KeyError` when absent, before any remote
call) and sent verbatim together with the new value, then the new value
is stored locally. -/
def set_max_setpoint_temp (api : Api) (d : Device)
    (max_setpoint_temp : ℚ) : MRes :=
  match dictGet d.plant_settings .SE_MAX_SETPOINT_TEMPERATURE with
  | none =>
      (d, [], .error (.keyError
        (SeDeviceSettings.keyName .SE_MAX_SETPOINT_TEMPERATURE)))
  | some old =>
      match api.set_lydos_plant_setting d.gw
          .SE_MAX_SETPOINT_TEMPERATURE (.vq max_setpoint_temp) old with
      | .error e =>
          (d, [.setLydosPlantSetting d.gw .SE_MAX_SETPOINT_TEMPERATURE
                (.vq max_setpoint_temp) old], .error e)
      | .ok _ =>
          ({ d with plant_settings :=
              (dictSet d.plant_settings .SE_MAX_SETPOINT_TEMPERATURE
                (.vq max_setpoint_temp)) },
           [.setLydosPlantSetting d.gw .SE_MAX_SETPOINT_TEMPERATURE
             (.vq max_setpoint_temp) old], .ok ())

/-- `async_set_max_setpoint_temp`: same body through the async client
method. -/
def async_set_max_setpoint_temp (api : Api) (d : Device)
    (max_setpoint_temp : ℚ) : MRes :=
  match dictGet d.plant_settings .SE_MAX_SETPOINT_TEMPERATURE with
  | none =>
      (d, [], .error (.keyError
        (SeDeviceSettings.keyName .SE_MAX_SETPOINT_TEMPERATURE)))
  | some old =>
      match api.async_set_lydos_plant_setting d.gw
          .SE_MAX_SETPOINT_TEMPERATURE (.vq max_setpoint_temp) old with
      | .error e =>
          (d, [.setLydosPlantSetting d.gw .SE_MAX_SETPOINT_TEMPERATURE
                (.vq max_setpoint_temp) old], .error e)
      | .ok _ =>
          ({ d with plant_settings :=
              (dictSet d.plant_settings .SE_MAX_SETPOINT_TEMPERATURE
                (.vq max_setpoint_temp)) },
           [.setLydosPlantSetting d.gw .SE_MAX_SETPOINT_TEMPERATURE
             (.vq max_setpoint_temp) old], .ok ())

/-- `_get_consumptions_sequences`. -/
def consumptions_sequences_refresh (api : Api) (d : Device) : MRes :=
  match api.get_consumptions_sequences d.gw
      "DhwHeatingPumpElec%2CDhwResistorElec" with
  | .error e =>
      (d, [.getConsumptionsSequences d.gw
            "DhwHeatingPumpElec%2CDhwResistorElec"], .error e)
  | .ok res =>
      ({ d with consumptions_sequences := res },
       [.getConsumptionsSequences d.gw
         "DhwHeatingPumpElec%2CDhwResistorElec"], .ok ())

/-- `_async_get_consumptions_sequences`: same body through the async
client method. -/
def async_consumptions_sequences_refresh (api : Api) (d : Device) : MRes :=
  match api.async_get_consumptions_sequences d.gw
      "DhwHeatingPumpElec%2CDhwResistorElec" with
  | .error e =>
      (d, [.getConsumptionsSequences d.gw
            "DhwHeatingPumpElec%2CDhwResistorElec"], .error e)
  | .ok res =>
      ({ d with consumptions_sequences := res },
       [.getConsumptionsSequences d.gw
         "DhwHeatingPumpElec%2CDhwResistorElec"], .ok ())

end AristonLydosHybridDevice

/-- A mock API client on which every call succeeds; the async fields
are the same functions as the blocking ones, so it also models the
"identical mocked API responses" situation. -/
def apiOk : Api where
  set_lydos_plant_setting := fun _ _ _ _ => .ok ()
  async_set_lydos_plant_setting := fun _ _ _ _ => .ok ()
  set_lydos_mode := fun _ _ => .ok ()
  async_set_lydos_mode := fun _ _ => .ok ()
  set_lydos_temperature := fun _ _ => .ok ()
  async_set_lydos_temperature := fun _ _ => .ok ()
  set_lydos_power := fun _ _ => .ok ()
  async_set_lydos_power := fun _ _ => .ok ()
  get_se_plant_data := fun _ => .ok []
  async_get_se_plant_data := fun _ => .ok []
  get_se_plant_settings := fun _ => .ok []
  async_get_se_plant_settings := fun _ => .ok []
  get_consumptions_sequences := fun _ _ => .ok []
  async_get_consumptions_sequences := fun _ _ => .ok []

/-- A mock API client on which every call raises the same exception,
`Exc.apiError 7`. -/
def apiFail : Api where
  set_lydos_plant_setting := fun _ _ _ _ => .error (.apiError 7)
  async_set_lydos_plant_setting := fun _ _ _ _ => .error (.apiError 7)
  set_lydos_mode := fun _ _ => .error (.apiError 7)
  async_set_lydos_mode := fun _ _ => .error (.apiError 7)
  set_lydos_temperature := fun _ _ => .error (.apiError 7)
  async_set_lydos_temperature := fun _ _ => .error (.apiError 7)
  set_lydos_power := fun _ _ => .error (.apiError 7)
  async_set_lydos_power := fun _ _ => .error (.apiError 7)
  get_se_plant_data := fun _ => .error (.apiError 7)
  async_get_se_plant_data := fun _ => .error (.apiError 7)
  get_se_plant_settings := fun _ => .error (.apiError 7)
  async_get_se_plant_settings := fun _ => .error (.apiError 7)
  get_consumptions_sequences := fun _ _ => .error (.apiError 7)
  async_get_consumptions_sequences := fun _ _ => .error (.apiError 7)

/-- A device whose snapshots are populated: both diff-style setting
keys are present, with setpoint bounds 40–80. -/
def d0 : Device where
  gw := "gw0"
  data := [(.MODE, .vq 1), (.REQ_TEMP, .vq 50), (.ON, .vb true)]
  plant_settings :=
    [(.SE_ANTILEGIONELLA_ON_OFF, .vb false),
     (.SE_MAX_SETPOINT_TEMPERATURE, .vq 65),
     (.SE_MAX_SETPOINT_TEMPERATURE_MIN, .vq 40),
     (.SE_MAX_SETPOINT_TEMPERATURE_MAX, .vq 80)]
  consumptions_sequences := []

/-- A device with empty snapshots: every key is absent. -/
def dEmpty : Device where
  gw := "gw0"
  data := []
  plant_settings := []
  consumptions_sequences := []

theorem dictGet_dictSet_self {κ α : Type} [DecidableEq κ]
    (m : List (κ × α)) (k : κ) (v : α) :
    dictGet (dictSet m k v) k = some v := by
  induction m with
  | nil => simp [dictGet, dictSet]
  | cons hd t ih =>
      obtain ⟨k', v'⟩ := hd
      by_cases h : k' = k
      · simp [dictGet, dictSet, h]
      · simp [dictGet, dictSet, h, ih]

theorem dictGet_dictSet_ne {κ α : Type} [DecidableEq κ]
    (m : List (κ × α)) (k k' : κ) (v : α) (h : k' ≠ k) :
    dictGet (dictSet m k v) k' = dictGet m k' := by
  induction m with
  | nil => simp [dictGet, dictSet, Ne.symm h]
  | cons hd t ih =>
      obtain ⟨k0, v0⟩ := hd
      by_cases h0 : k0 = k
      · subst h0
        simp [dictGet, dictSet, Ne.symm h]
      · simp [dictGet, dictSet, h0, ih]

open AristonLydosHybridDevice

theorem update_state_ok_eq (api : Api) (d : Device)
    (res : List (VelisDeviceProperties × Value))
    (hapi : api.get_se_plant_data d.gw = Except.ok res) :
    update_state api d =
      ({ d with data := res }, [ApiCall.getSePlantData d.gw], Except.ok ()) := by
  unfold update_state
  simp [hapi]

theorem update_state_err_eq (api : Api) (d : Device) (e : Exc)
    (hapi : api.get_se_plant_data d.gw = Except.error e) :
    update_state api d = (d, [ApiCall.getSePlantData d.gw], Except.error e) := by
  unfold update_state
  simp [hapi]

theorem async_update_state_ok_eq (api : Api) (d : Device)
    (res : List (VelisDeviceProperties × Value))
    (hapi : api.async_get_se_plant_data d.gw = Except.ok res) :
    async_update_state api d =
      ({ d with data := res }, [ApiCall.getSePlantData d.gw], Except.ok ()) := by
  unfold async_update_state
  simp [hapi]

theorem async_update_state_err_eq (api : Api) (d : Device) (e : Exc)
    (hapi : api.async_get_se_plant_data d.gw = Except.error e) :
    async_update_state api d = (d, [ApiCall.getSePlantData d.gw], Except.error e) := by
  unfold async_update_state
  simp [hapi]

theorem update_settings_ok_eq (api : Api) (d : Device)
    (res : List (SeDeviceSettings × Value))
    (hapi : api.get_se_plant_settings d.gw = Except.ok res) :
    update_settings api d =
      ({ d with plant_settings := res }, [ApiCall.getSePlantSettings d.gw], Except.ok ()) := by
  unfold update_settings
  simp [hapi]

theorem update_settings_err_eq (api : Api) (d : Device) (e : Exc)
    (hapi : api.get_se_plant_settings d.gw = Except.error e) :
    update_settings api d = (d, [ApiCall.getSePlantSettings d.gw], Except.error e) := by
  unfold update_settings
  simp [hapi]

theorem async_update_settings_ok_eq (api : Api) (d : Device)
    (res : List (SeDeviceSettings × Value))
    (hapi : api.async_get_se_plant_settings d.gw = Except.ok res) :
    async_update_settings api d =
      ({ d with plant_settings := res }, [ApiCall.getSePlantSettings d.gw], Except.ok ()) := by
  unfold async_update_settings
  simp [hapi]

theorem async_update_settings_err_eq (api : Api) (d : Device) (e : Exc)
    (hapi : api.async_get_se_plant_settings d.gw = Except.error e) :
    async_update_settings api d = (d, [ApiCall.getSePlantSettings d.gw], Except.error e) := by
  unfold async_update_settings
  simp [hapi]

theorem consumptions_sequences_refresh_ok_eq (api : Api) (d : Device)
    (res : List ℚ)
    (hapi : api.get_consumptions_sequences d.gw
      "DhwHeatingPumpElec%2CDhwResistorElec" = Except.ok res) :
    consumptions_sequences_refresh api d =
      ({ d with consumptions_sequences := res },
       [ApiCall.getConsumptionsSequences d.gw
         "DhwHeatingPumpElec%2CDhwResistorElec"], Except.ok ()) := by
  unfold consumptions_sequences_refresh
  simp [hapi]

theorem consumptions_sequences_refresh_err_eq (api : Api) (d : Device) (e : Exc)
    (hapi : api.get_consumptions_sequences d.gw
      "DhwHeatingPumpElec%2CDhwResistorElec" = Except.error e) :
    consumptions_sequences_refresh api d =
      (d, [ApiCall.getConsumptionsSequences d.gw
        "DhwHeatingPumpElec%2CDhwResistorElec"], Except.error e) := by
  unfold consumptions_sequences_refresh
  simp [hapi]

theorem async_consumptions_sequences_refresh_ok_eq (api : Api) (d : Device)
    (res : List ℚ)
    (hapi : api.async_get_consumptions_sequences d.gw
      "DhwHeatingPumpElec%2CDhwResistorElec" = Except.ok res) :
    async_consumptions_sequences_refresh api d =
      ({ d with consumptions_sequences := res },
       [ApiCall.getConsumptionsSequences d.gw
         "DhwHeatingPumpElec%2CDhwResistorElec"], Except.ok ()) := by
  unfold async_consumptions_sequences_refresh
  simp [hapi]

theorem async_consumptions_sequences_refresh_err_eq (api : Api) (d : Device) (e : Exc)
    (hapi : api.async_get_consumptions_sequences d.gw
      "DhwHeatingPumpElec%2CDhwResistorElec" = Except.error e) :
    async_consumptions_sequences_refresh api d =
      (d, [ApiCall.getConsumptionsSequences d.gw
        "DhwHeatingPumpElec%2CDhwResistorElec"], Except.error e) := by
  unfold async_consumptions_sequences_refresh
  simp [hapi]

theorem set_antilegionella_keyerr_eq (api : Api) (d : Device) (b : Bool)
    (hk : dictGet d.plant_settings
      SeDeviceSettings.SE_ANTILEGIONELLA_ON_OFF = none) :
    set_antilegionella api d b =
      (d, [], Except.error (Exc.keyError "SE_ANTILEGIONELLA_ON_OFF")) := by
  unfold set_antilegionella
  rw [hk]
  rfl

theorem set_antilegionella_err_eq (api : Api) (d : Device) (b : Bool)
    (old : Value) (e : Exc)
    (hk : dictGet d.plant_settings
      SeDeviceSettings.SE_ANTILEGIONELLA_ON_OFF = some old)
    (hapi : api.set_lydos_plant_setting d.gw
      SeDeviceSettings.SE_ANTILEGIONELLA_ON_OFF
      (Value.vq (if b then 1 else 0))
      (Value.vq (if old.truthy then 1 else 0)) = Except.error e) :
    set_antilegionella api d b =
      (d, [ApiCall.setLydosPlantSetting d.gw
            SeDeviceSettings.SE_ANTILEGIONELLA_ON_OFF
            (Value.vq (if b then 1 else 0))
            (Value.vq (if old.truthy then 1 else 0))],
       Except.error e) := by
  unfold set_antilegionella
  rw [hk]
  simp [hapi]

theorem set_antilegionella_ok_eq (api : Api) (d : Device) (b : Bool)
    (old : Value) (u : Unit)
    (hk : dictGet d.plant_settings
      SeDeviceSettings.SE_ANTILEGIONELLA_ON_OFF = some old)
    (hapi : api.set_lydos_plant_setting d.gw
      SeDeviceSettings.SE_ANTILEGIONELLA_ON_OFF
      (Value.vq (if b then 1 else 0))
      (Value.vq (if old.truthy then 1 else 0)) = Except.ok u) :
    set_antilegionella api d b =
      ({ d with plant_settings :=
          (dictSet d.plant_settings
            SeDeviceSettings.SE_ANTILEGIONELLA_ON_OFF (Value.vb b)) },
       [ApiCall.setLydosPlantSetting d.gw
          SeDeviceSettings.SE_ANTILEGIONELLA_ON_OFF
          (Value.vq (if b then 1 else 0))
          (Value.vq (if old.truthy then 1 else 0))],
       Except.ok ()) := by
  unfold set_antilegionella
  rw [hk]
  simp [hapi]

theorem async_set_antilegionella_keyerr_eq (api : Api) (d : Device) (b : Bool)
    (hk : dictGet d.plant_settings
      SeDeviceSettings.SE_ANTILEGIONELLA_ON_OFF = none) :
    async_set_antilegionella api d b =
      (d, [], Except.error (Exc.keyError "SE_ANTILEGIONELLA_ON_OFF")) := by
  unfold async_set_antilegionella
  rw [hk]
  rfl

theorem async_set_antilegionella_err_eq (api : Api) (d : Device) (b : Bool)
    (old : Value) (e : Exc)
    (hk : dictGet d.plant_settings
      SeDeviceSettings.SE_ANTILEGIONELLA_ON_OFF = some old)
    (hapi : api.async_set_lydos_plant_setting d.gw
      SeDeviceSettings.SE_ANTILEGIONELLA_ON_OFF
      (Value.vq (if b then 1 else 0))
      (Value.vq (if old.truthy then 1 else 0)) = Except.error e) :
    async_set_antilegionella api d b =
      (d, [ApiCall.setLydosPlantSetting d.gw
            SeDeviceSettings.SE_ANTILEGIONELLA_ON_OFF
            (Value.vq (if b then 1 else 0))
            (Value.vq (if old.truthy then 1 else 0))],
       Except.error e) := by
  unfold async_set_antilegionella
  rw [hk]
  simp [hapi]

theorem async_set_antilegionella_ok_eq (api : Api) (d : Device) (b : Bool)
    (old : Value) (u : Unit)
    (hk : dictGet d.plant_settings
      SeDeviceSettings.SE_ANTILEGIONELLA_ON_OFF = some old)
    (hapi : api.async_set_lydos_plant_setting d.gw
      SeDeviceSettings.SE_ANTILEGIONELLA_ON_OFF
      (Value.vq (if b then 1 else 0))
      (Value.vq (if old.truthy then 1 else 0)) = Except.ok u) :
    async_set_antilegionella api d b =
      ({ d with plant_settings :=
          (dictSet d.plant_settings
            SeDeviceSettings.SE_ANTILEGIONELLA_ON_OFF (Value.vb b)) },
       [ApiCall.setLydosPlantSetting d.gw
          SeDeviceSettings.SE_ANTILEGIONELLA_ON_OFF
          (Value.vq (if b then 1 else 0))
          (Value.vq (if old.truthy then 1 else 0))],
       Except.ok ()) := by
  unfold async_set_antilegionella
  rw [hk]
  simp [hapi]

theorem set_water_heater_operation_mode_keyerr_eq (api : Api) (d : Device) (s : String)
    (hk : LydosPlantMode.byName s = none) :
    set_water_heater_operation_mode api d s = (d, [], Except.error (Exc.keyError s)) := by
  unfold set_water_heater_operation_mode
  rw [hk]

theorem set_water_heater_operation_mode_err_eq (api : Api) (d : Device) (s : String)
    (m : LydosPlantMode) (e : Exc)
    (hk : LydosPlantMode.byName s = some m)
    (hapi : api.set_lydos_mode d.gw m = Except.error e) :
    set_water_heater_operation_mode api d s =
      (d, [ApiCall.setLydosMode d.gw m], Except.error e) := by
  unfold set_water_heater_operation_mode
  rw [hk]
  simp [hapi]

theorem set_water_heater_operation_mode_ok_eq (api : Api) (d : Device) (s : String)
    (m : LydosPlantMode) (u : Unit)
    (hk : LydosPlantMode.byName s = some m)
    (hapi : api.set_lydos_mode d.gw m = Except.ok u) :
    set_water_heater_operation_mode api d s =
      ({ d with data :=
          (dictSet d.data VelisDeviceProperties.MODE (Value.vq m.value)) },
       [ApiCall.setLydosMode d.gw m], Except.ok ()) := by
  unfold set_water_heater_operation_mode
  rw [hk]
  simp [hapi]

theorem async_set_water_heater_operation_mode_keyerr_eq (api : Api) (d : Device) (s : String)
    (hk : LydosPlantMode.byName s = none) :
    async_set_water_heater_operation_mode api d s = (d, [], Except.error (Exc.keyError s)) := by
  unfold async_set_water_heater_operation_mode
  rw [hk]

theorem async_set_water_heater_operation_mode_err_eq (api : Api) (d : Device) (s : String)
    (m : LydosPlantMode) (e : Exc)
    (hk : LydosPlantMode.byName s = some m)
    (hapi : api.async_set_lydos_mode d.gw m = Except.error e) :
    async_set_water_heater_operation_mode api d s =
      (d, [ApiCall.setLydosMode d.gw m], Except.error e) := by
  unfold async_set_water_heater_operation_mode
  rw [hk]
  simp [hapi]

theorem async_set_water_heater_operation_mode_ok_eq (api : Api) (d : Device) (s : String)
    (m : LydosPlantMode) (u : Unit)
    (hk : LydosPlantMode.byName s = some m)
    (hapi : api.async_set_lydos_mode d.gw m = Except.ok u) :
    async_set_water_heater_operation_mode api d s =
      ({ d with data :=
          (dictSet d.data VelisDeviceProperties.MODE (Value.vq m.value)) },
       [ApiCall.setLydosMode d.gw m], Except.ok ()) := by
  unfold async_set_water_heater_operation_mode
  rw [hk]
  simp [hapi]

theorem set_water_heater_temperature_err_eq (api : Api) (d : Device) (t : ℚ) (e : Exc)
    (hapi : api.set_lydos_temperature d.gw t = Except.error e) :
    set_water_heater_temperature api d t =
      (d, [ApiCall.setLydosTemperature d.gw t], Except.error e) := by
  unfold set_water_heater_temperature
  simp [hapi]

theorem set_water_heater_temperature_ok_eq (api : Api) (d : Device) (t : ℚ) (u : Unit)
    (hapi : api.set_lydos_temperature d.gw t = Except.ok u) :
    set_water_heater_temperature api d t =
      ({ d with data :=
          (dictSet d.data VelisDeviceProperties.REQ_TEMP (Value.vq t)) },
       [ApiCall.setLydosTemperature d.gw t], Except.ok ()) := by
  unfold set_water_heater_temperature
  simp [hapi]

theorem async_set_water_heater_temperature_err_eq (api : Api) (d : Device) (t : ℚ) (e : Exc)
    (hapi : api.async_set_lydos_temperature d.gw t = Except.error e) :
    async_set_water_heater_temperature api d t =
      (d, [ApiCall.setLydosTemperature d.gw t], Except.error e) := by
  unfold async_set_water_heater_temperature
  simp [hapi]

theorem async_set_water_heater_temperature_ok_eq (api : Api) (d : Device) (t : ℚ) (u : Unit)
    (hapi : api.async_set_lydos_temperature d.gw t = Except.ok u) :
    async_set_water_heater_temperature api d t =
      ({ d with data :=
          (dictSet d.data VelisDeviceProperties.REQ_TEMP (Value.vq t)) },
       [ApiCall.setLydosTemperature d.gw t], Except.ok ()) := by
  unfold async_set_water_heater_temperature
  simp [hapi]

theorem set_power_err_eq (api : Api) (d : Device) (p : Bool) (e : Exc)
    (hapi : api.set_lydos_power d.gw p = Except.error e) :
    set_power api d p =
      (d, [ApiCall.setLydosPower d.gw p], Except.error e) := by
  unfold set_power
  simp [hapi]

theorem set_power_ok_eq (api : Api) (d : Device) (p : Bool) (u : Unit)
    (hapi : api.set_lydos_power d.gw p = Except.ok u) :
    set_power api d p =
      ({ d with data :=
          (dictSet d.data VelisDeviceProperties.ON (Value.vb p)) },
       [ApiCall.setLydosPower d.gw p], Except.ok ()) := by
  unfold set_power
  simp [hapi]

theorem async_set_power_err_eq (api : Api) (d : Device) (p : Bool) (e : Exc)
    (hapi : api.async_set_lydos_power d.gw p = Except.error e) :
    async_set_power api d p =
      (d, [ApiCall.setLydosPower d.gw p], Except.error e) := by
  unfold async_set_power
  simp [hapi]

theorem async_set_power_ok_eq (api : Api) (d : Device) (p : Bool) (u : Unit)
    (hapi : api.async_set_lydos_power d.gw p = Except.ok u) :
    async_set_power api d p =
      ({ d with data :=
          (dictSet d.data VelisDeviceProperties.ON (Value.vb p)) },
       [ApiCall.setLydosPower d.gw p], Except.ok ()) := by
  unfold async_set_power
  simp [hapi]

theorem set_max_setpoint_temp_keyerr_eq (api : Api) (d : Device) (t : ℚ)
    (hk : dictGet d.plant_settings
      SeDeviceSettings.SE_MAX_SETPOINT_TEMPERATURE = none) :
    set_max_setpoint_temp api d t =
      (d, [], Except.error (Exc.keyError "SE_MAX_SETPOINT_TEMPERATURE")) := by
  unfold set_max_setpoint_temp
  rw [hk]
  rfl

theorem set_max_setpoint_temp_err_eq (api : Api) (d : Device) (t : ℚ)
    (old : Value) (e : Exc)
    (hk : dictGet d.plant_settings
      SeDeviceSettings.SE_MAX_SETPOINT_TEMPERATURE = some old)
    (hapi : api.set_lydos_plant_setting d.gw
      SeDeviceSettings.SE_MAX_SETPOINT_TEMPERATURE
      (Value.vq t) old = Except.error e) :
    set_max_setpoint_temp api d t =
      (d, [ApiCall.setLydosPlantSetting d.gw
            SeDeviceSettings.SE_MAX_SETPOINT_TEMPERATURE
            (Value.vq t) old],
       Except.error e) := by
  unfold set_max_setpoint_temp
  rw [hk]
  simp [hapi]

theorem set_max_setpoint_temp_ok_eq (api : Api) (d : Device) (t : ℚ)
    (old : Value) (u : Unit)
    (hk : dictGet d.plant_settings
      SeDeviceSettings.SE_MAX_SETPOINT_TEMPERATURE = some old)
    (hapi : api.set_lydos_plant_setting d.gw
      SeDeviceSettings.SE_MAX_SETPOINT_TEMPERATURE
      (Value.vq t) old = Except.ok u) :
    set_max_setpoint_temp api d t =
      ({ d with plant_settings :=
          (dictSet d.plant_settings
            SeDeviceSettings.SE_MAX_SETPOINT_TEMPERATURE (Value.vq t)) },
       [ApiCall.setLydosPlantSetting d.gw
          SeDeviceSettings.SE_MAX_SETPOINT_TEMPERATURE
          (Value.vq t) old],
       Except.ok ()) := by
  unfold set_max_setpoint_temp
  rw [hk]
  simp [hapi]

theorem async_set_max_setpoint_temp_keyerr_eq (api : Api) (d : Device) (t : ℚ)
    (hk : dictGet d.plant_settings
      SeDeviceSettings.SE_MAX_SETPOINT_TEMPERATURE = none) :
    async_set_max_setpoint_temp api d t =
      (d, [], Except.error (Exc.keyError "SE_MAX_SETPOINT_TEMPERATURE")) := by
  unfold async_set_max_setpoint_temp
  rw [hk]
  rfl

theorem async_set_max_setpoint_temp_err_eq (api : Api) (d : Device) (t : ℚ)
    (old : Value) (e : Exc)
    (hk : dictGet d.plant_settings
      SeDeviceSettings.SE_MAX_SETPOINT_TEMPERATURE = some old)
    (hapi : api.async_set_lydos_plant_setting d.gw
      SeDeviceSettings.SE_MAX_SETPOINT_TEMPERATURE
      (Value.vq t) old = Except.error e) :
    async_set_max_setpoint_temp api d t =
      (d, [ApiCall.setLydosPlantSetting d.gw
            SeDeviceSettings.SE_MAX_SETPOINT_TEMPERATURE
            (Value.vq t) old],
       Except.error e) := by
  unfold async_set_max_setpoint_temp
  rw [hk]
  simp [hapi]

theorem async_set_max_setpoint_temp_ok_eq (api : Api) (d : Device) (t : ℚ)
    (old : Value) (u : Unit)
    (hk : dictGet d.plant_settings
      SeDeviceSettings.SE_MAX_SETPOINT_TEMPERATURE = some old)
    (hapi : api.async_set_lydos_plant_setting d.gw
      SeDeviceSettings.SE_MAX_SETPOINT_TEMPERATURE
      (Value.vq t) old = Except.ok u) :
    async_set_max_setpoint_temp api d t =
      ({ d with plant_settings :=
          (dictSet d.plant_settings
            SeDeviceSettings.SE_MAX_SETPOINT_TEMPERATURE (Value.vq t)) },
       [ApiCall.setLydosPlantSetting d.gw
          SeDeviceSettings.SE_MAX_SETPOINT_TEMPERATURE
          (Value.vq t) old],
       Except.ok ()) := by
  unfold async_set_max_setpoint_temp
  rw [hk]
  simp [hapi]

/-- Claim C1: for every value `v`, calling a setter and then the
corresponding getter returns exactly `v`: after a completed
`set_max_setpoint_temp v`, `get_water_heater_maximum_setpoint_temperature`
returns `v`; after a completed `set_antilegionella b` (the
anti-legionella key being present beforehand), `get_water_anti_leg_value`
returns `b`. -/
theorem C1_setter_getter_roundtrip
    (api : Api) (d d1 d2 : Device) (c1 c2 : List ApiCall)
    (v : ℚ) (b : Bool) :
    (set_max_setpoint_temp api d v = (d1, c1, Except.ok ()) →
      (get_water_heater_maximum_setpoint_temperature d1).1 =
        some (Value.vq v)) ∧
    ((dictGet d.plant_settings
        SeDeviceSettings.SE_ANTILEGIONELLA_ON_OFF).isSome →
      set_antilegionella api d b = (d2, c2, Except.ok ()) →
      (get_water_anti_leg_value d2).1 = some (Value.vb b)) := by
  constructor
  · intro h
    cases hk : dictGet d.plant_settings
        SeDeviceSettings.SE_MAX_SETPOINT_TEMPERATURE with
    | none =>
        rw [set_max_setpoint_temp_keyerr_eq api d v hk] at h
        simp at h
    | some old =>
        cases hapi : api.set_lydos_plant_setting d.gw
            SeDeviceSettings.SE_MAX_SETPOINT_TEMPERATURE
            (Value.vq v) old with
        | error e =>
            rw [set_max_setpoint_temp_err_eq api d v old e hk hapi] at h
            simp at h
        | ok u =>
            rw [set_max_setpoint_temp_ok_eq api d v old u hk hapi] at h
            simp only [Prod.mk.injEq] at h
            obtain ⟨hdev, -, -⟩ := h
            subst hdev
            simp [get_water_heater_maximum_setpoint_temperature,
              dictGet_dictSet_self]
  · intro hs h
    obtain ⟨old, hk⟩ := Option.isSome_iff_exists.mp hs
    cases hapi : api.set_lydos_plant_setting d.gw
        SeDeviceSettings.SE_ANTILEGIONELLA_ON_OFF
        (Value.vq (if b then 1 else 0))
        (Value.vq (if old.truthy then 1 else 0)) with
    | error e =>
        rw [set_antilegionella_err_eq api d b old e hk hapi] at h
        simp at h
    | ok u =>
        rw [set_antilegionella_ok_eq api d b old u hk hapi] at h
        simp only [Prod.mk.injEq] at h
        obtain ⟨hdev, -, -⟩ := h
        subst hdev
        simp [get_water_anti_leg_value, dictGet_dictSet_self]

/-- Claim C1, witnessed on the populated device `d0` with the all-ok
API mock: setting the max setpoint to 70 and the anti-legionella flag
to `true` round-trips through the getters. -/
theorem C1_setter_getter_roundtrip_witness :
    (get_water_heater_maximum_setpoint_temperature
      (set_max_setpoint_temp apiOk d0 70).1).1 = some (Value.vq 70) ∧
    (get_water_anti_leg_value
      (set_antilegionella apiOk d0 true).1).1 = some (Value.vb true) :=
  ⟨(C1_setter_getter_roundtrip apiOk d0
      (set_max_setpoint_temp apiOk d0 70).1
      (set_antilegionella apiOk d0 true).1
      (set_max_setpoint_temp apiOk d0 70).2.1
      (set_antilegionella apiOk d0 true).2.1 70 true).1 rfl,
   (C1_setter_getter_roundtrip apiOk d0
      (set_max_setpoint_temp apiOk d0 70).1
      (set_antilegionella apiOk d0 true).1
      (set_max_setpoint_temp apiOk d0 70).2.1
      (set_antilegionella apiOk d0 true).2.1 70 true).2
     (by decide) rfl⟩

/-- Claim C4: each of the four snapshot getters returns `None` when its
key is absent from `plant_settings` and the stored value when the key
is present. -/
theorem C4_getters_absent_none_present_value (d : Device) :
    ((dictGet d.plant_settings
        SeDeviceSettings.SE_ANTILEGIONELLA_ON_OFF = none →
       (get_water_anti_leg_value d).1 = none) ∧
     (∀ v, dictGet d.plant_settings
        SeDeviceSettings.SE_ANTILEGIONELLA_ON_OFF = some v →
       (get_water_anti_leg_value d).1 = some v)) ∧
    ((dictGet d.plant_settings
        SeDeviceSettings.SE_MAX_SETPOINT_TEMPERATURE = none →
       (get_water_heater_maximum_setpoint_temperature d).1 = none) ∧
     (∀ v, dictGet d.plant_settings
        SeDeviceSettings.SE_MAX_SETPOINT_TEMPERATURE = some v →
       (get_water_heater_maximum_setpoint_temperature d).1 = some v)) ∧
    ((dictGet d.plant_settings
        SeDeviceSettings.SE_MAX_SETPOINT_TEMPERATURE_MIN = none →
       (get_water_heater_maximum_setpoint_temperature_minimum d).1 =
         none) ∧
     (∀ v, dictGet d.plant_settings
        SeDeviceSettings.SE_MAX_SETPOINT_TEMPERATURE_MIN = some v →
       (get_water_heater_maximum_setpoint_temperature_minimum d).1 =
         some v)) ∧
    ((dictGet d.plant_settings
        SeDeviceSettings.SE_MAX_SETPOINT_TEMPERATURE_MAX = none →
       (get_water_heater_maximum_setpoint_temperature_maximum d).1 =
         none) ∧
     (∀ v, dictGet d.plant_settings
        SeDeviceSettings.SE_MAX_SETPOINT_TEMPERATURE_MAX = some v →
       (get_water_heater_maximum_setpoint_temperature_maximum d).1 =
         some v)) := by
  refine ⟨⟨fun h => ?_, fun v h => ?_⟩, ⟨fun h => ?_, fun v h => ?_⟩,
    ⟨fun h => ?_, fun v h => ?_⟩, ⟨fun h => ?_, fun v h => ?_⟩⟩ <;>
    simpa [get_water_anti_leg_value,
      get_water_heater_maximum_setpoint_temperature,
      get_water_heater_maximum_setpoint_temperature_minimum,
      get_water_heater_maximum_setpoint_temperature_maximum] using h

/-- Claim C4, witnessed: on the empty device every getter returns
`none`; on the populated device `d0` the max-setpoint getter returns
the stored 65. -/
theorem C4_getters_absent_none_present_value_witness :
    (get_water_anti_leg_value dEmpty).1 = none ∧
    (get_water_heater_maximum_setpoint_temperature d0).1 =
      some (Value.vq 65) :=
  ⟨(C4_getters_absent_none_present_value dEmpty).1.1 rfl,
   (C4_getters_absent_none_present_value d0).2.1.2 (Value.vq 65) rfl⟩

/-- Claim C10: the diff-style setters index `plant_settings` directly
for the old value, so with the key absent they raise a `KeyError`
before any remote API call and leave the snapshot unchanged. -/
theorem C10_missing_key_keyerror_before_call
    (api : Api) (d : Device) (b : Bool) (t : ℚ) :
    (dictGet d.plant_settings
        SeDeviceSettings.SE_ANTILEGIONELLA_ON_OFF = none →
      set_antilegionella api d b =
        (d, [], Except.error (Exc.keyError "SE_ANTILEGIONELLA_ON_OFF"))) ∧
    (dictGet d.plant_settings
        SeDeviceSettings.SE_MAX_SETPOINT_TEMPERATURE = none →
      set_max_setpoint_temp api d t =
        (d, [], Except.error
          (Exc.keyError "SE_MAX_SETPOINT_TEMPERATURE"))) :=
  ⟨fun hk => set_antilegionella_keyerr_eq api d b hk,
   fun hk => set_max_setpoint_temp_keyerr_eq api d t hk⟩

/-- Claim C10, witnessed on the empty device: both diff-style setters
raise `KeyError`, issue no remote call, and leave the device as it
was. -/
theorem C10_missing_key_keyerror_before_call_witness :
    set_antilegionella apiOk dEmpty true =
      (dEmpty, [], Except.error
        (Exc.keyError "SE_ANTILEGIONELLA_ON_OFF")) ∧
    set_max_setpoint_temp apiOk dEmpty 50 =
      (dEmpty, [], Except.error
        (Exc.keyError "SE_MAX_SETPOINT_TEMPERATURE")) :=
  ⟨(C10_missing_key_keyerror_before_call apiOk dEmpty true 50).1 rfl,
   (C10_missing_key_keyerror_before_call apiOk dEmpty true 50).2 rfl⟩

/-- Claim C9: setters are atomic with respect to errors — whenever a
setter raises (a `KeyError` from the old-value or mode-name lookup, or
any exception from the remote call), the device snapshots are exactly
as they were before the call. -/
theorem C9_setters_atomic_on_error
    (api : Api) (d d' : Device) (c : List ApiCall) (e : Exc)
    (b : Bool) (s : String) (t tm : ℚ) (p : Bool) :
    (set_antilegionella api d b = (d', c, Except.error e) → d' = d) ∧
    (set_water_heater_operation_mode api d s = (d', c, Except.error e) →
      d' = d) ∧
    (set_water_heater_temperature api d t = (d', c, Except.error e) →
      d' = d) ∧
    (set_power api d p = (d', c, Except.error e) → d' = d) ∧
    (set_max_setpoint_temp api d tm = (d', c, Except.error e) →
      d' = d) := by
  refine ⟨?_, ?_, ?_, ?_, ?_⟩
  · intro h
    cases hk : dictGet d.plant_settings
        SeDeviceSettings.SE_ANTILEGIONELLA_ON_OFF with
    | none =>
        rw [set_antilegionella_keyerr_eq api d b hk] at h
        simp only [Prod.mk.injEq] at h
        exact h.1.symm
    | some old =>
        cases hapi : api.set_lydos_plant_setting d.gw
            SeDeviceSettings.SE_ANTILEGIONELLA_ON_OFF
            (Value.vq (if b then 1 else 0))
            (Value.vq (if old.truthy then 1 else 0)) with
        | error e' =>
            rw [set_antilegionella_err_eq api d b old e' hk hapi] at h
            simp only [Prod.mk.injEq] at h
            exact h.1.symm
        | ok u =>
            rw [set_antilegionella_ok_eq api d b old u hk hapi] at h
            simp at h
  · intro h
    cases hk : LydosPlantMode.byName s with
    | none =>
        rw [set_water_heater_operation_mode_keyerr_eq api d s hk] at h
        simp only [Prod.mk.injEq] at h
        exact h.1.symm
    | some m =>
        cases hapi : api.set_lydos_mode d.gw m with
        | error e' =>
            rw [set_water_heater_operation_mode_err_eq
              api d s m e' hk hapi] at h
            simp only [Prod.mk.injEq] at h
            exact h.1.symm
        | ok u =>
            rw [set_water_heater_operation_mode_ok_eq
              api d s m u hk hapi] at h
            simp at h
  · intro h
    cases hapi : api.set_lydos_temperature d.gw t with
    | error e' =>
        rw [set_water_heater_temperature_err_eq api d t e' hapi] at h
        simp only [Prod.mk.injEq] at h
        exact h.1.symm
    | ok u =>
        rw [set_water_heater_temperature_ok_eq api d t u hapi] at h
        simp at h
  · intro h
    cases hapi : api.set_lydos_power d.gw p with
    | error e' =>
        rw [set_power_err_eq api d p e' hapi] at h
        simp only [Prod.mk.injEq] at h
        exact h.1.symm
    | ok u =>
        rw [set_power_ok_eq api d p u hapi] at h
        simp at h
  · intro h
    cases hk : dictGet d.plant_settings
        SeDeviceSettings.SE_MAX_SETPOINT_TEMPERATURE with
    | none =>
        rw [set_max_setpoint_temp_keyerr_eq api d tm hk] at h
        simp only [Prod.mk.injEq] at h
        exact h.1.symm
    | some old =>
        cases hapi : api.set_lydos_plant_setting d.gw
            SeDeviceSettings.SE_MAX_SETPOINT_TEMPERATURE
            (Value.vq tm) old with
        | error e' =>
            rw [set_max_setpoint_temp_err_eq api d tm old e' hk hapi] at h
            simp only [Prod.mk.injEq] at h
            exact h.1.symm
        | ok u =>
            rw [set_max_setpoint_temp_ok_eq api d tm old u hk hapi] at h
            simp at h

/-- Claim C9, witnessed with the all-fail API mock on the populated
device: `set_power` raises and the device is unchanged. -/
theorem C9_setters_atomic_on_error_witness :
    (set_power apiFail d0 false).1 = d0 :=
  (C9_setters_atomic_on_error apiFail d0
    (set_power apiFail d0 false).1 (set_power apiFail d0 false).2.1
    (Exc.apiError 7) true "IMEMORY" 50 70 false).2.2.2.1 rfl

/-- Claim C6: for every operation of this module, if the underlying
API call raises an error `e`, the operation raises that same `e`
unmodified, the API method was invoked exactly once (so never retried),
and no recovery action is taken — the device is left unchanged.  The
getters make no API call at all. -/
theorem C6_errors_propagate_unmodified
    (api : Api) (d : Device) (e : Exc)
    (b : Bool) (s : String) (t tm : ℚ) (p : Bool) :
    (api.get_se_plant_data d.gw = Except.error e →
      update_state api d =
        (d, [ApiCall.getSePlantData d.gw], Except.error e)) ∧
    (api.async_get_se_plant_data d.gw = Except.error e →
      async_update_state api d =
        (d, [ApiCall.getSePlantData d.gw], Except.error e)) ∧
    (api.get_se_plant_settings d.gw = Except.error e →
      update_settings api d =
        (d, [ApiCall.getSePlantSettings d.gw], Except.error e)) ∧
    (api.async_get_se_plant_settings d.gw = Except.error e →
      async_update_settings api d =
        (d, [ApiCall.getSePlantSettings d.gw], Except.error e)) ∧
    (api.get_consumptions_sequences d.gw
        "DhwHeatingPumpElec%2CDhwResistorElec" = Except.error e →
      consumptions_sequences_refresh api d =
        (d, [ApiCall.getConsumptionsSequences d.gw
          "DhwHeatingPumpElec%2CDhwResistorElec"], Except.error e)) ∧
    (api.async_get_consumptions_sequences d.gw
        "DhwHeatingPumpElec%2CDhwResistorElec" = Except.error e →
      async_consumptions_sequences_refresh api d =
        (d, [ApiCall.getConsumptionsSequences d.gw
          "DhwHeatingPumpElec%2CDhwResistorElec"], Except.error e)) ∧
    (∀ old, dictGet d.plant_settings
        SeDeviceSettings.SE_ANTILEGIONELLA_ON_OFF = some old →
      api.set_lydos_plant_setting d.gw
        SeDeviceSettings.SE_ANTILEGIONELLA_ON_OFF
        (Value.vq (if b then 1 else 0))
        (Value.vq (if old.truthy then 1 else 0)) = Except.error e →
      set_antilegionella api d b =
        (d, [ApiCall.setLydosPlantSetting d.gw
              SeDeviceSettings.SE_ANTILEGIONELLA_ON_OFF
              (Value.vq (if b then 1 else 0))
              (Value.vq (if old.truthy then 1 else 0))],
         Except.error e)) ∧
    (∀ old, dictGet d.plant_settings
        SeDeviceSettings.SE_ANTILEGIONELLA_ON_OFF = some old →
      api.async_set_lydos_plant_setting d.gw
        SeDeviceSettings.SE_ANTILEGIONELLA_ON_OFF
        (Value.vq (if b then 1 else 0))
        (Value.vq (if old.truthy then 1 else 0)) = Except.error e →
      async_set_antilegionella api d b =
        (d, [ApiCall.setLydosPlantSetting d.gw
              SeDeviceSettings.SE_ANTILEGIONELLA_ON_OFF
              (Value.vq (if b then 1 else 0))
              (Value.vq (if old.truthy then 1 else 0))],
         Except.error e)) ∧
    (∀ m, LydosPlantMode.byName s = some m →
      api.set_lydos_mode d.gw m = Except.error e →
      set_water_heater_operation_mode api d s =
        (d, [ApiCall.setLydosMode d.gw m], Except.error e)) ∧
    (∀ m, LydosPlantMode.byName s = some m →
      api.async_set_lydos_mode d.gw m = Except.error e →
      async_set_water_heater_operation_mode api d s =
        (d, [ApiCall.setLydosMode d.gw m], Except.error e)) ∧
    (api.set_lydos_temperature d.gw t = Except.error e →
      set_water_heater_temperature api d t =
        (d, [ApiCall.setLydosTemperature d.gw t], Except.error e)) ∧
    (api.async_set_lydos_temperature d.gw t = Except.error e →
      async_set_water_heater_temperature api d t =
        (d, [ApiCall.setLydosTemperature d.gw t], Except.error e)) ∧
    (api.set_lydos_power d.gw p = Except.error e →
      set_power api d p =
        (d, [ApiCall.setLydosPower d.gw p], Except.error e)) ∧
    (api.async_set_lydos_power d.gw p = Except.error e →
      async_set_power api d p =
        (d, [ApiCall.setLydosPower d.gw p], Except.error e)) ∧
    (∀ old, dictGet d.plant_settings
        SeDeviceSettings.SE_MAX_SETPOINT_TEMPERATURE = some old →
      api.set_lydos_plant_setting d.gw
        SeDeviceSettings.SE_MAX_SETPOINT_TEMPERATURE
        (Value.vq tm) old = Except.error e →
      set_max_setpoint_temp api d tm =
        (d, [ApiCall.setLydosPlantSetting d.gw
              SeDeviceSettings.SE_MAX_SETPOINT_TEMPERATURE
              (Value.vq tm) old],
         Except.error e)) ∧
    (∀ old, dictGet d.plant_settings
        SeDeviceSettings.SE_MAX_SETPOINT_TEMPERATURE = some old →
      api.async_set_lydos_plant_setting d.gw
        SeDeviceSettings.SE_MAX_SETPOINT_TEMPERATURE
        (Value.vq tm) old = Except.error e →
      async_set_max_setpoint_temp api d tm =
        (d, [ApiCall.setLydosPlantSetting d.gw
              SeDeviceSettings.SE_MAX_SETPOINT_TEMPERATURE
              (Value.vq tm) old],
         Except.error e)) :=
  ⟨fun h => update_state_err_eq api d e h,
   fun h => async_update_state_err_eq api d e h,
   fun h => update_settings_err_eq api d e h,
   fun h => async_update_settings_err_eq api d e h,
   fun h => consumptions_sequences_refresh_err_eq api d e h,
   fun h => async_consumptions_sequences_refresh_err_eq api d e h,
   fun old hk h => set_antilegionella_err_eq api d b old e hk h,
   fun old hk h => async_set_antilegionella_err_eq api d b old e hk h,
   fun m hk h => set_water_heater_operation_mode_err_eq api d s m e hk h,
   fun m hk h =>
     async_set_water_heater_operation_mode_err_eq api d s m e hk h,
   fun h => set_water_heater_temperature_err_eq api d t e h,
   fun h => async_set_water_heater_temperature_err_eq api d t e h,
   fun h => set_power_err_eq api d p e h,
   fun h => async_set_power_err_eq api d p e h,
   fun old hk h => set_max_setpoint_temp_err_eq api d tm old e hk h,
   fun old hk h => async_set_max_setpoint_temp_err_eq api d tm old e hk h⟩

/-- Claim C6, witnessed with the all-fail API mock: `update_state` and
`set_power` re-raise exactly `apiError 7` after exactly one call and
leave the device untouched. -/
theorem C6_errors_propagate_unmodified_witness :
    update_state apiFail d0 =
      (d0, [ApiCall.getSePlantData "gw0"],
       Except.error (Exc.apiError 7)) ∧
    set_power apiFail d0 true =
      (d0, [ApiCall.setLydosPower "gw0" true],
       Except.error (Exc.apiError 7)) :=
  ⟨(C6_errors_propagate_unmodified apiFail d0 (Exc.apiError 7)
      true "IMEMORY" 50 70 true).1 rfl,
   (C6_errors_propagate_unmodified apiFail d0 (Exc.apiError 7)
      true "IMEMORY" 50 70 true).2.2.2.2.2.2.2.2.2.2.2.2.1 rfl⟩

/-- Claim C7: the temperature setters validate nothing — for every
rational `t`, whatever the bounds stored in `plant_settings`,
`set_water_heater_temperature` and `set_max_setpoint_temp` send exactly
`t` to the API and, on success, store exactly `t`, never rejecting,
clamping or altering it. -/
theorem C7_no_range_validation (api : Api) (d : Device) (t : ℚ) :
    ((set_water_heater_temperature api d t).2.1 =
      [ApiCall.setLydosTemperature d.gw t]) ∧
    (∀ d1 c1,
      set_water_heater_temperature api d t = (d1, c1, Except.ok ()) →
      dictGet d1.data VelisDeviceProperties.REQ_TEMP =
        some (Value.vq t)) ∧
    (∀ old, dictGet d.plant_settings
        SeDeviceSettings.SE_MAX_SETPOINT_TEMPERATURE = some old →
      ((set_max_setpoint_temp api d t).2.1 =
        [ApiCall.setLydosPlantSetting d.gw
          SeDeviceSettings.SE_MAX_SETPOINT_TEMPERATURE
          (Value.vq t) old]) ∧
      (∀ d1 c1,
        set_max_setpoint_temp api d t = (d1, c1, Except.ok ()) →
        dictGet d1.plant_settings
          SeDeviceSettings.SE_MAX_SETPOINT_TEMPERATURE =
          some (Value.vq t))) := by
  refine ⟨?_, ?_, ?_⟩
  · cases hapi : api.set_lydos_temperature d.gw t with
    | error e => rw [set_water_heater_temperature_err_eq api d t e hapi]
    | ok u => rw [set_water_heater_temperature_ok_eq api d t u hapi]
  · intro d1 c1 h
    cases hapi : api.set_lydos_temperature d.gw t with
    | error e =>
        rw [set_water_heater_temperature_err_eq api d t e hapi] at h
        simp at h
    | ok u =>
        rw [set_water_heater_temperature_ok_eq api d t u hapi] at h
        simp only [Prod.mk.injEq] at h
        obtain ⟨hdev, -, -⟩ := h
        subst hdev
        simp [dictGet_dictSet_self]
  · intro old hk
    constructor
    · cases hapi : api.set_lydos_plant_setting d.gw
          SeDeviceSettings.SE_MAX_SETPOINT_TEMPERATURE
          (Value.vq t) old with
      | error e => rw [set_max_setpoint_temp_err_eq api d t old e hk hapi]
      | ok u => rw [set_max_setpoint_temp_ok_eq api d t old u hk hapi]
    · intro d1 c1 h
      cases hapi : api.set_lydos_plant_setting d.gw
          SeDeviceSettings.SE_MAX_SETPOINT_TEMPERATURE
          (Value.vq t) old with
      | error e =>
          rw [set_max_setpoint_temp_err_eq api d t old e hk hapi] at h
          simp at h
      | ok u =>
          rw [set_max_setpoint_temp_ok_eq api d t old u hk hapi] at h
          simp only [Prod.mk.injEq] at h
          obtain ⟨hdev, -, -⟩ := h
          subst hdev
          simp [dictGet_dictSet_self]

/-- Claim C7, witnessed at `t = 1000`, far above the stored bound
`SE_MAX_SETPOINT_TEMPERATURE_MAX = 80` of `d0`: the value is forwarded
and stored unaltered. -/
theorem C7_no_range_validation_witness :
    (set_water_heater_temperature apiOk d0 1000).2.1 =
      [ApiCall.setLydosTemperature "gw0" 1000] ∧
    dictGet (set_max_setpoint_temp apiOk d0 1000).1.plant_settings
      SeDeviceSettings.SE_MAX_SETPOINT_TEMPERATURE =
      some (Value.vq 1000) :=
  ⟨(C7_no_range_validation apiOk d0 1000).1,
   ((C7_no_range_validation apiOk d0 1000).2.2 (Value.vq 65) rfl).2
     (set_max_setpoint_temp apiOk d0 1000).1
     (set_max_setpoint_temp apiOk d0 1000).2.1 rfl⟩

/-- Claim C8: each setter touches at most its one targeted key — every
other key of `data` and of `plant_settings` is unchanged, on the
success path and on every error path alike — and the getters modify
neither mapping. -/
theorem C8_setters_frame_getters_pure
    (api : Api) (d : Device) (b : Bool) (s : String) (t tm : ℚ)
    (p : Bool) :
    (∀ k, k ≠ VelisDeviceProperties.ON →
      dictGet (set_power api d p).1.data k = dictGet d.data k) ∧
    ((set_power api d p).1.plant_settings = d.plant_settings) ∧
    (∀ k, k ≠ VelisDeviceProperties.MODE →
      dictGet (set_water_heater_operation_mode api d s).1.data k =
        dictGet d.data k) ∧
    ((set_water_heater_operation_mode api d s).1.plant_settings =
      d.plant_settings) ∧
    (∀ k, k ≠ VelisDeviceProperties.REQ_TEMP →
      dictGet (set_water_heater_temperature api d t).1.data k =
        dictGet d.data k) ∧
    ((set_water_heater_temperature api d t).1.plant_settings =
      d.plant_settings) ∧
    (∀ k, k ≠ SeDeviceSettings.SE_ANTILEGIONELLA_ON_OFF →
      dictGet (set_antilegionella api d b).1.plant_settings k =
        dictGet d.plant_settings k) ∧
    ((set_antilegionella api d b).1.data = d.data) ∧
    (∀ k, k ≠ SeDeviceSettings.SE_MAX_SETPOINT_TEMPERATURE →
      dictGet (set_max_setpoint_temp api d tm).1.plant_settings k =
        dictGet d.plant_settings k) ∧
    ((set_max_setpoint_temp api d tm).1.data = d.data) ∧
    ((get_water_anti_leg_value d).2 = d) ∧
    ((get_water_heater_maximum_setpoint_temperature d).2 = d) ∧
    ((get_water_heater_maximum_setpoint_temperature_minimum d).2 = d) ∧
    ((get_water_heater_maximum_setpoint_temperature_maximum d).2 =
      d) := by
  refine ⟨?_, ?_, ?_, ?_, ?_, ?_, ?_, ?_, ?_, ?_, rfl, rfl, rfl, rfl⟩
  · intro k hkne
    cases hapi : api.set_lydos_power d.gw p with
    | error e => rw [set_power_err_eq api d p e hapi]
    | ok u =>
        rw [set_power_ok_eq api d p u hapi]
        exact dictGet_dictSet_ne d.data VelisDeviceProperties.ON k
          (Value.vb p) hkne
  · cases hapi : api.set_lydos_power d.gw p with
    | error e => rw [set_power_err_eq api d p e hapi]
    | ok u => rw [set_power_ok_eq api d p u hapi]
  · intro k hkne
    cases hk : LydosPlantMode.byName s with
    | none => rw [set_water_heater_operation_mode_keyerr_eq api d s hk]
    | some m =>
        cases hapi : api.set_lydos_mode d.gw m with
        | error e =>
            rw [set_water_heater_operation_mode_err_eq api d s m e hk hapi]
        | ok u =>
            rw [set_water_heater_operation_mode_ok_eq api d s m u hk hapi]
            exact dictGet_dictSet_ne d.data VelisDeviceProperties.MODE k
              (Value.vq m.value) hkne
  · cases hk : LydosPlantMode.byName s with
    | none => rw [set_water_heater_operation_mode_keyerr_eq api d s hk]
    | some m =>
        cases hapi : api.set_lydos_mode d.gw m with
        | error e =>
            rw [set_water_heater_operation_mode_err_eq api d s m e hk hapi]
        | ok u =>
            rw [set_water_heater_operation_mode_ok_eq api d s m u hk hapi]
  · intro k hkne
    cases hapi : api.set_lydos_temperature d.gw t with
    | error e => rw [set_water_heater_temperature_err_eq api d t e hapi]
    | ok u =>
        rw [set_water_heater_temperature_ok_eq api d t u hapi]
        exact dictGet_dictSet_ne d.data VelisDeviceProperties.REQ_TEMP k
          (Value.vq t) hkne
  · cases hapi : api.set_lydos_temperature d.gw t with
    | error e => rw [set_water_heater_temperature_err_eq api d t e hapi]
    | ok u => rw [set_water_heater_temperature_ok_eq api d t u hapi]
  · intro k hkne
    cases hk : dictGet d.plant_settings
        SeDeviceSettings.SE_ANTILEGIONELLA_ON_OFF with
    | none => rw [set_antilegionella_keyerr_eq api d b hk]
    | some old =>
        cases hapi : api.set_lydos_plant_setting d.gw
            SeDeviceSettings.SE_ANTILEGIONELLA_ON_OFF
            (Value.vq (if b then 1 else 0))
            (Value.vq (if old.truthy then 1 else 0)) with
        | error e => rw [set_antilegionella_err_eq api d b old e hk hapi]
        | ok u =>
            rw [set_antilegionella_ok_eq api d b old u hk hapi]
            exact dictGet_dictSet_ne d.plant_settings
              SeDeviceSettings.SE_ANTILEGIONELLA_ON_OFF k
              (Value.vb b) hkne
  · cases hk : dictGet d.plant_settings
        SeDeviceSettings.SE_ANTILEGIONELLA_ON_OFF with
    | none => rw [set_antilegionella_keyerr_eq api d b hk]
    | some old =>
        cases hapi : api.set_lydos_plant_setting d.gw
            SeDeviceSettings.SE_ANTILEGIONELLA_ON_OFF
            (Value.vq (if b then 1 else 0))
            (Value.vq (if old.truthy then 1 else 0)) with
        | error e => rw [set_antilegionella_err_eq api d b old e hk hapi]
        | ok u => rw [set_antilegionella_ok_eq api d b old u hk hapi]
  · intro k hkne
    cases hk : dictGet d.plant_settings
        SeDeviceSettings.SE_MAX_SETPOINT_TEMPERATURE with
    | none => rw [set_max_setpoint_temp_keyerr_eq api d tm hk]
    | some old =>
        cases hapi : api.set_lydos_plant_setting d.gw
            SeDeviceSettings.SE_MAX_SETPOINT_TEMPERATURE
            (Value.vq tm) old with
        | error e => rw [set_max_setpoint_temp_err_eq api d tm old e hk hapi]
        | ok u =>
            rw [set_max_setpoint_temp_ok_eq api d tm old u hk hapi]
            exact dictGet_dictSet_ne d.plant_settings
              SeDeviceSettings.SE_MAX_SETPOINT_TEMPERATURE k
              (Value.vq tm) hkne
  · cases hk : dictGet d.plant_settings
        SeDeviceSettings.SE_MAX_SETPOINT_TEMPERATURE with
    | none => rw [set_max_setpoint_temp_keyerr_eq api d tm hk]
    | some old =>
        cases hapi : api.set_lydos_plant_setting d.gw
            SeDeviceSettings.SE_MAX_SETPOINT_TEMPERATURE
            (Value.vq tm) old with
        | error e => rw [set_max_setpoint_temp_err_eq api d tm old e hk hapi]
        | ok u => rw [set_max_setpoint_temp_ok_eq api d tm old u hk hapi]

/-- Claim C8, witnessed: after `set_power` on `d0` the untargeted
`MODE` key of `data` still holds its old value. -/
theorem C8_setters_frame_getters_pure_witness :
    dictGet (set_power apiOk d0 true).1.data
      VelisDeviceProperties.MODE =
      dictGet d0.data VelisDeviceProperties.MODE :=
  (C8_setters_frame_getters_pure apiOk d0 true "IMEMORY" 50 70 true).1
    VelisDeviceProperties.MODE (by decide)

/-- Claim C5 fails as stated: a setter invocation can issue zero remote
API calls.  Concretely, `set_antilegionella true` on a device whose
`plant_settings` is empty raises `KeyError` while reading the old value
and never reaches the API, so its call trace is `[]`, not of length
one. -/
theorem C5_counterexample :
    (set_antilegionella apiOk dEmpty true).2.1 = [] ∧
    ¬ (set_antilegionella apiOk dEmpty true).2.1.length = 1 := by
  decide

/-- Claim C5 amended: every setter issues at most one remote API call —
exactly one whenever its local lookup (the diff-style old-value read,
or the mode-name lookup) succeeds, and zero when that lookup raises
`KeyError`.  The diff-style call carries both the new value and the old
value from the snapshot, and no setter's trace contains any fetch. -/
theorem C5_amended_at_most_one_call
    (api : Api) (d : Device) (b : Bool) (s : String) (t tm : ℚ)
    (p : Bool) :
    ((set_power api d p).2.1 = [ApiCall.setLydosPower d.gw p]) ∧
    ((set_water_heater_temperature api d t).2.1 =
      [ApiCall.setLydosTemperature d.gw t]) ∧
    (∀ m, LydosPlantMode.byName s = some m →
      (set_water_heater_operation_mode api d s).2.1 =
        [ApiCall.setLydosMode d.gw m]) ∧
    (LydosPlantMode.byName s = none →
      (set_water_heater_operation_mode api d s).2.1 = []) ∧
    (∀ old, dictGet d.plant_settings
        SeDeviceSettings.SE_ANTILEGIONELLA_ON_OFF = some old →
      (set_antilegionella api d b).2.1 =
        [ApiCall.setLydosPlantSetting d.gw
          SeDeviceSettings.SE_ANTILEGIONELLA_ON_OFF
          (Value.vq (if b then 1 else 0))
          (Value.vq (if old.truthy then 1 else 0))]) ∧
    (dictGet d.plant_settings
        SeDeviceSettings.SE_ANTILEGIONELLA_ON_OFF = none →
      (set_antilegionella api d b).2.1 = []) ∧
    (∀ old, dictGet d.plant_settings
        SeDeviceSettings.SE_MAX_SETPOINT_TEMPERATURE = some old →
      (set_max_setpoint_temp api d tm).2.1 =
        [ApiCall.setLydosPlantSetting d.gw
          SeDeviceSettings.SE_MAX_SETPOINT_TEMPERATURE
          (Value.vq tm) old]) ∧
    (dictGet d.plant_settings
        SeDeviceSettings.SE_MAX_SETPOINT_TEMPERATURE = none →
      (set_max_setpoint_temp api d tm).2.1 = []) := by
  refine ⟨?_, ?_, ?_, ?_, ?_, ?_, ?_, ?_⟩
  · cases hapi : api.set_lydos_power d.gw p with
    | error e => rw [set_power_err_eq api d p e hapi]
    | ok u => rw [set_power_ok_eq api d p u hapi]
  · cases hapi : api.set_lydos_temperature d.gw t with
    | error e => rw [set_water_heater_temperature_err_eq api d t e hapi]
    | ok u => rw [set_water_heater_temperature_ok_eq api d t u hapi]
  · intro m hk
    cases hapi : api.set_lydos_mode d.gw m with
    | error e =>
        rw [set_water_heater_operation_mode_err_eq api d s m e hk hapi]
    | ok u =>
        rw [set_water_heater_operation_mode_ok_eq api d s m u hk hapi]
  · intro hk
    rw [set_water_heater_operation_mode_keyerr_eq api d s hk]
  · intro old hk
    cases hapi : api.set_lydos_plant_setting d.gw
        SeDeviceSettings.SE_ANTILEGIONELLA_ON_OFF
        (Value.vq (if b then 1 else 0))
        (Value.vq (if old.truthy then 1 else 0)) with
    | error e => rw [set_antilegionella_err_eq api d b old e hk hapi]
    | ok u => rw [set_antilegionella_ok_eq api d b old u hk hapi]
  · intro hk
    rw [set_antilegionella_keyerr_eq api d b hk]
  · intro old hk
    cases hapi : api.set_lydos_plant_setting d.gw
        SeDeviceSettings.SE_MAX_SETPOINT_TEMPERATURE
        (Value.vq tm) old with
    | error e => rw [set_max_setpoint_temp_err_eq api d tm old e hk hapi]
    | ok u => rw [set_max_setpoint_temp_ok_eq api d tm old u hk hapi]
  · intro hk
    rw [set_max_setpoint_temp_keyerr_eq api d tm hk]

/-- Claim C5 amended, witnessed: on `d0` (anti-legionella key present,
currently `false`) `set_antilegionella true` issues the single
diff-style call carrying new value `1.0` and old value `0.0`. -/
theorem C5_amended_at_most_one_call_witness :
    (set_antilegionella apiOk d0 true).2.1 =
      [ApiCall.setLydosPlantSetting "gw0"
        SeDeviceSettings.SE_ANTILEGIONELLA_ON_OFF
        (Value.vq 1) (Value.vq 0)] :=
  (C5_amended_at_most_one_call apiOk d0 true "IMEMORY" 50 70
    true).2.2.2.2.1 (Value.vb false) rfl

/-- Claim C2 fails as stated: after a completed
`set_water_heater_operation_mode "IMEMORY"`, the single API call
carried the `LydosPlantMode` member `IMEMORY`, while `data[MODE]` holds
the member's integer value `1` — and under Python equality a plain Enum
member is not equal to its integer value, so the snapshot does not
store the value just sent. -/
theorem C2_counterexample :
    (set_water_heater_operation_mode apiOk d0 "IMEMORY").2.2 =
      Except.ok () ∧
    (set_water_heater_operation_mode apiOk d0 "IMEMORY").2.1 =
      [ApiCall.setLydosMode "gw0" LydosPlantMode.IMEMORY] ∧
    dictGet (set_water_heater_operation_mode apiOk d0 "IMEMORY").1.data
      VelisDeviceProperties.MODE = some (Value.vq 1) ∧
    Value.pyEq (Value.vq 1) (Value.vmode LydosPlantMode.IMEMORY) =
      false :=
  ⟨rfl, by decide, by decide, by decide⟩

/-- Claim C2 amended: after any setter completes, the snapshot holds,
under the targeted key, the value determined by the setter's argument —
literally the value sent for `set_power`, `set_water_heater_temperature`
and `set_max_setpoint_temp`; for `set_antilegionella` the bool whose
float encoding (`1.0`/`0.0`) was sent, Python-`==`-equal to it; and for
`set_water_heater_operation_mode` the integer `.value` of the
`LydosPlantMode` member that was sent (not the member itself). -/
theorem C2_amended_snapshot_reflects_sent
    (api : Api) (d : Device) (b : Bool) (s : String) (t tm : ℚ)
    (p : Bool) :
    (∀ d1 c1, set_power api d p = (d1, c1, Except.ok ()) →
      dictGet d1.data VelisDeviceProperties.ON = some (Value.vb p) ∧
      c1 = [ApiCall.setLydosPower d.gw p]) ∧
    (∀ d1 c1,
      set_water_heater_temperature api d t = (d1, c1, Except.ok ()) →
      dictGet d1.data VelisDeviceProperties.REQ_TEMP =
        some (Value.vq t) ∧
      c1 = [ApiCall.setLydosTemperature d.gw t]) ∧
    (∀ old d1 c1, dictGet d.plant_settings
        SeDeviceSettings.SE_ANTILEGIONELLA_ON_OFF = some old →
      set_antilegionella api d b = (d1, c1, Except.ok ()) →
      dictGet d1.plant_settings
        SeDeviceSettings.SE_ANTILEGIONELLA_ON_OFF =
        some (Value.vb b) ∧
      c1 = [ApiCall.setLydosPlantSetting d.gw
        SeDeviceSettings.SE_ANTILEGIONELLA_ON_OFF
        (Value.vq (if b then 1 else 0))
        (Value.vq (if old.truthy then 1 else 0))] ∧
      Value.pyEq (Value.vb b) (Value.vq (if b then 1 else 0)) =
        true) ∧
    (∀ m d1 c1, LydosPlantMode.byName s = some m →
      set_water_heater_operation_mode api d s = (d1, c1, Except.ok ()) →
      dictGet d1.data VelisDeviceProperties.MODE =
        some (Value.vq m.value) ∧
      c1 = [ApiCall.setLydosMode d.gw m]) ∧
    (∀ old d1 c1, dictGet d.plant_settings
        SeDeviceSettings.SE_MAX_SETPOINT_TEMPERATURE = some old →
      set_max_setpoint_temp api d tm = (d1, c1, Except.ok ()) →
      dictGet d1.plant_settings
        SeDeviceSettings.SE_MAX_SETPOINT_TEMPERATURE =
        some (Value.vq tm) ∧
      c1 = [ApiCall.setLydosPlantSetting d.gw
        SeDeviceSettings.SE_MAX_SETPOINT_TEMPERATURE
        (Value.vq tm) old]) := by
  refine ⟨?_, ?_, ?_, ?_, ?_⟩
  · intro d1 c1 h
    cases hapi : api.set_lydos_power d.gw p with
    | error e => rw [set_power_err_eq api d p e hapi] at h; simp at h
    | ok u =>
        rw [set_power_ok_eq api d p u hapi] at h
        simp only [Prod.mk.injEq] at h
        obtain ⟨hdev, hc, -⟩ := h
        subst hdev
        exact ⟨by simp [dictGet_dictSet_self], hc.symm⟩
  · intro d1 c1 h
    cases hapi : api.set_lydos_temperature d.gw t with
    | error e =>
        rw [set_water_heater_temperature_err_eq api d t e hapi] at h
        simp at h
    | ok u =>
        rw [set_water_heater_temperature_ok_eq api d t u hapi] at h
        simp only [Prod.mk.injEq] at h
        obtain ⟨hdev, hc, -⟩ := h
        subst hdev
        exact ⟨by simp [dictGet_dictSet_self], hc.symm⟩
  · intro old d1 c1 hk h
    cases hapi : api.set_lydos_plant_setting d.gw
        SeDeviceSettings.SE_ANTILEGIONELLA_ON_OFF
        (Value.vq (if b then 1 else 0))
        (Value.vq (if old.truthy then 1 else 0)) with
    | error e =>
        rw [set_antilegionella_err_eq api d b old e hk hapi] at h
        simp at h
    | ok u =>
        rw [set_antilegionella_ok_eq api d b old u hk hapi] at h
        simp only [Prod.mk.injEq] at h
        obtain ⟨hdev, hc, -⟩ := h
        subst hdev
        refine ⟨by simp [dictGet_dictSet_self], hc.symm, ?_⟩
        cases b <;> decide
  · intro m d1 c1 hk h
    cases hapi : api.set_lydos_mode d.gw m with
    | error e =>
        rw [set_water_heater_operation_mode_err_eq api d s m e hk hapi]
          at h
        simp at h
    | ok u =>
        rw [set_water_heater_operation_mode_ok_eq api d s m u hk hapi]
          at h
        simp only [Prod.mk.injEq] at h
        obtain ⟨hdev, hc, -⟩ := h
        subst hdev
        exact ⟨by simp [dictGet_dictSet_self], hc.symm⟩
  · intro old d1 c1 hk h
    cases hapi : api.set_lydos_plant_setting d.gw
        SeDeviceSettings.SE_MAX_SETPOINT_TEMPERATURE
        (Value.vq tm) old with
    | error e =>
        rw [set_max_setpoint_temp_err_eq api d tm old e hk hapi] at h
        simp at h
    | ok u =>
        rw [set_max_setpoint_temp_ok_eq api d tm old u hk hapi] at h
        simp only [Prod.mk.injEq] at h
        obtain ⟨hdev, hc, -⟩ := h
        subst hdev
        exact ⟨by simp [dictGet_dictSet_self], hc.symm⟩

/-- Claim C2 amended, witnessed: after `set_power true` on `d0` the
`ON` key holds the bool `true` that was sent. -/
theorem C2_amended_snapshot_reflects_sent_witness :
    dictGet (set_power apiOk d0 true).1.data
      VelisDeviceProperties.ON = some (Value.vb true) ∧
    (set_power apiOk d0 true).2.1 =
      [ApiCall.setLydosPower "gw0" true] :=
  (C2_amended_snapshot_reflects_sent apiOk d0 true "IMEMORY" 50 70
    true).1 (set_power apiOk d0 true).1 (set_power apiOk d0 true).2.1
    rfl

/-- Claim C3: whenever the async client methods return the same
responses as the blocking ones, every async method of this module
computes exactly the same result — device post-state, call trace and
outcome — as its blocking twin, from any initial snapshot. -/
theorem C3_sync_async_same_result (api : Api)
    (h1 : api.async_get_se_plant_data = api.get_se_plant_data)
    (h2 : api.async_get_se_plant_settings = api.get_se_plant_settings)
    (h3 : api.async_set_lydos_plant_setting =
      api.set_lydos_plant_setting)
    (h4 : api.async_set_lydos_mode = api.set_lydos_mode)
    (h5 : api.async_set_lydos_temperature = api.set_lydos_temperature)
    (h6 : api.async_set_lydos_power = api.set_lydos_power)
    (h7 : api.async_get_consumptions_sequences =
      api.get_consumptions_sequences)
    (d : Device) (b : Bool) (s : String) (t tm : ℚ) (p : Bool) :
    async_update_state api d = update_state api d ∧
    async_update_settings api d = update_settings api d ∧
    async_set_antilegionella api d b = set_antilegionella api d b ∧
    async_set_water_heater_operation_mode api d s =
      set_water_heater_operation_mode api d s ∧
    async_set_water_heater_temperature api d t =
      set_water_heater_temperature api d t ∧
    async_set_power api d p = set_power api d p ∧
    async_set_max_setpoint_temp api d tm =
      set_max_setpoint_temp api d tm ∧
    async_consumptions_sequences_refresh api d =
      consumptions_sequences_refresh api d := by
  refine ⟨?_, ?_, ?_, ?_, ?_, ?_, ?_, ?_⟩ <;>
    simp only [async_update_state, update_state, async_update_settings,
      update_settings, async_set_antilegionella, set_antilegionella,
      async_set_water_heater_operation_mode,
      set_water_heater_operation_mode,
      async_set_water_heater_temperature, set_water_heater_temperature,
      async_set_power, set_power, async_set_max_setpoint_temp,
      set_max_setpoint_temp, async_consumptions_sequences_refresh,
      consumptions_sequences_refresh, h1, h2, h3, h4, h5, h6, h7]

/-- Claim C3, witnessed on the all-ok mock (whose async fields are the
same functions as the blocking ones): `async_set_power` and `set_power`
agree on `d0`. -/
theorem C3_sync_async_same_result_witness :
    async_set_power apiOk d0 true = set_power apiOk d0 true :=
  (C3_sync_async_same_result apiOk rfl rfl rfl rfl rfl rfl rfl
    d0 true "IMEMORY" 50 70 true).2.2.2.2.2.1

end LydosHybrid
